import Mathlib

/-!
Verification development for the vrunas privilege-dropping launcher
(src/vrunas.c, src/main.c).  The C core is shallowly embedded: pure
computations become Lean functions, syscall outcomes become explicit
oracle parameters, and process-level control flow (fork / exec / exit)
becomes tagged result values.  Machine integers are modelled as Nat/Int,
with an explicit modulus where a narrowing conversion occurs in the C.
-/

namespace VRunAs

/-! ### Error codes (vrunas.c enum, lines 106-120) -/

def ERR_PROG_MISSING : Int := 1
def ERR_SETID : Int := 2
def ERR_BUILDARGV : Int := 4
def ERR_EXEC : Int := 5
def ERR_REDIR : Int := 6
def ERR_SETOUT : Int := 7
def ERR_BENCH : Int := 8
def ERR_SETIN : Int := 9
def ERR_PRIORITY : Int := 10

/-! ### POSIX constants used by the embedded code -/

def STDIN_FILENO : Nat := 0
def STDOUT_FILENO : Nat := 1
def STDERR_FILENO : Nat := 2

def S_IRUSR : Nat := 0o400
def S_IWUSR : Nat := 0o200
def S_IRGRP : Nat := 0o040

/-! ### Identity switcher: set_uidgid (vrunas.c lines 166-190)

The C function takes the context flags (HAVE_GID / HAVE_UID bits) and
calls setgid then setuid, returning ERR_SETID as soon as one fails.
The outcome of each syscall is an oracle Boolean; the returned list
records the syscalls actually issued, in order. -/

inductive IdCall where
  | callSetgid : IdCall
  | callSetuid : IdCall
deriving DecidableEq, Repr

/-- Shallow embedding of set_uidgid: result code paired with the ordered
list of identity syscalls attempted. -/
def set_uidgid (haveGid haveUid gidOk uidOk : Bool) : Int × List IdCall :=
  let gcalls : List IdCall := if haveGid then [IdCall.callSetgid] else []
  if haveGid && !gidOk then (ERR_SETID, gcalls)
  else
    let calls : List IdCall := gcalls ++ (if haveUid then [IdCall.callSetuid] else [])
    if haveUid && !uidOk then (ERR_SETID, calls)
    else (0, calls)

/-! ### Benchmark harness: do_bench (vrunas.c lines 330-439)

The parent branch waits for the child, prints the report and terminates
the process via exit(clean_ctx(code, ctx)); clean_ctx returns its first
argument unchanged (lines 140-164), so the exit status is the translated
child outcome. -/

inductive ChildOutcome where
  | exited (code : Int) : ChildOutcome
  | signaled (sig : Int) : ChildOutcome
  | unknown : ChildOutcome

inductive ForkRes where
  | fail : ForkRes
  | child : ForkRes
  | parent (oc : ChildOutcome) : ForkRes

inductive BenchRes where
  | errored : BenchRes                -- do_bench returns ERR_BENCH (fork failed)
  | continueChild : BenchRes          -- do_bench returns 0; caller goes on to exec
  | terminated (code : Int) : BenchRes -- parent branch: exit(clean_ctx(code, ctx))

/-- Discriminator: does the bench step hand control back to the caller? -/
def BenchRes.isContinue : BenchRes → Bool
  | .continueChild => true
  | _ => false

/-- Translation of the child's wait status performed at vrunas.c lines 426-435:
WIFEXITED gives the exit code, WIFSIGNALED gives -100 - signal, anything
else gives -100. -/
def translate_status : ChildOutcome → Int
  | .exited c => c
  | .signaled n => -100 - n
  | .unknown => -100

/-- Model of clean_ctx's return value (vrunas.c line 163): the code passes
through unchanged. -/
def clean_ctx_ret (ret : Int) : Int := ret

/-- Shallow embedding of do_bench: with no -t or -T flag it returns 0 without
forking; with bench on it forks, the child continues, the parent exits
with the translated status. -/
def do_bench (benchOn : Bool) (fk : ForkRes) : BenchRes :=
  if benchOn then
    match fk with
    | .fail => .errored
    | .child => .continueChild
    | .parent oc => .terminated (clean_ctx_ret (translate_status oc))
  else .continueChild

/-! ### Argument-vector builder: build_argv (vrunas.c lines 192-209)

The C requests malloc(argc + 1) bytes, then stores argc argument
pointers plus a terminating NULL, i.e. (argc + 1) pointer-sized cells. -/

/-- Number of bytes requested from malloc at vrunas.c line 197
(the expression is argc + 1, with no sizeof factor). -/
def build_argv_malloc_request (argc : Nat) : Nat := argc + 1

/-- Number of bytes the subsequent stores write: argc pointers plus the
terminating NULL pointer, each ptrSize bytes (lines 204-207). -/
def build_argv_bytes_needed (argc ptrSize : Nat) : Nat := (argc + 1) * ptrSize

/-! ### Stream redirection selection: set_redirections (vrunas.c lines 211-251)

The -2 flag (TO_STDERR) redirects stdout onto stderr; otherwise the -1
flag (TO_STDOUT) or an active bench mode (-t or -T) redirects stderr onto
stdout; otherwise nothing is redirected. -/

inductive StdStream where
  | stdoutS : StdStream
  | stderrS : StdStream
deriving DecidableEq, Repr

/-- Shallow embedding of the stream-selection logic of set_redirections
(lines 226-235): result is (redirected stream, destination stream), or
none when no redirection applies. -/
def redir_selection (toStdoutF toStderrF timePosix timeExt : Bool) :
    Option (StdStream × StdStream) :=
  if toStderrF then some (StdStream.stdoutS, StdStream.stderrS)
  else if toStdoutF || (timePosix || timeExt) then
    some (StdStream.stderrS, StdStream.stdoutS)
  else none

/-- Selection demanded by the spec sentence behind claim C1, written from
the spec's words (for comparison with redir_selection): -1 redirects
stderr onto stdout; -2, or benchmarking with no explicit mode, redirects
stdout onto stderr. -/
def redir_selection_claimed (toStdoutF toStderrF benchOn : Bool) :
    Option (StdStream × StdStream) :=
  if toStdoutF then some (StdStream.stderrS, StdStream.stdoutS)
  else if toStderrF || benchOn then some (StdStream.stdoutS, StdStream.stderrS)
  else none

/-- Tri-state redirect mode of the configuration (the two flag bits are
kept mutually exclusive by parse_option_first_pass, lines 451-460). -/
inductive RedirMode where
  | noneM : RedirMode
  | stderrToStdout : RedirMode   -- option -1 (TO_STDOUT flag)
  | stdoutToStderr : RedirMode   -- option -2 (TO_STDERR flag)

/-- Flag encoding of a redirect mode: (TO_STDOUT bit, TO_STDERR bit). -/
def modeFlags : RedirMode → Bool × Bool
  | .noneM => (false, false)
  | .stderrToStdout => (true, false)
  | .stdoutToStderr => (false, true)

/-! ### Identity resolver: parse_option cases u and g (vrunas.c lines 559-604)

Each identity option first runs strtol(arg, &endptr, 0); only when errno
is set or the string was not consumed entirely does it fall back to the
pwfindid_r / grfindid_r name lookup.  strtol with base 0 accepts a 0x
prefix as hex, a leading 0 as octal, and decimal otherwise; the result is
assigned to a uid_t / gid_t variable, a 32-bit unsigned narrowing. -/

def LONG_MAX : Int := 9223372036854775807
def LONG_MIN : Int := -9223372036854775808
def UID_MOD : Int := 4294967296

def isSpaceC (c : Char) : Bool :=
  c = ' ' || c = '\t' || c = '\n' || c = '\x0b' || c = '\x0c' || c = '\r'

def hexVal (c : Char) : Option Nat :=
  if '0' ≤ c && c ≤ '9' then some (c.toNat - 48)
  else if 'a' ≤ c && c ≤ 'f' then some (c.toNat - 87)
  else if 'A' ≤ c && c ≤ 'F' then some (c.toNat - 55)
  else none

def digitInBase (base : Nat) (c : Char) : Option Nat :=
  match hexVal c with
  | some v => if v < base then some v else none
  | none => none

/-- Digit scan of strtol: accumulated magnitude and number of digit
characters consumed. -/
def takeDigits (base : Nat) : List Char → Nat → Nat → Nat × Nat
  | [], acc, cnt => (acc, cnt)
  | c :: rest, acc, cnt =>
    match digitInBase base c with
    | some v => takeDigits base rest (acc * base + v) (cnt + 1)
    | none => (acc, cnt)

/-- Shallow embedding of strtol(arg, &endptr, 0) for a NUL-free argument
string: returns (value, number of characters consumed, range-error flag).
When no digit is consumed, endptr stays at the start (consumed = 0) and
the value is 0; out-of-range magnitudes clamp and raise the error flag
(errno = ERANGE). -/
def strtol0 (s : List Char) : Int × Nat × Bool :=
  let ws := (s.takeWhile isSpaceC).length
  let rest1 := s.dropWhile isSpaceC
  let signInfo : Int × Nat × List Char :=
    match rest1 with
    | '-' :: r => (-1, 1, r)
    | '+' :: r => (1, 1, r)
    | r => (1, 0, r)
  let baseInfo : Nat × Nat × List Char :=
    match signInfo.2.2 with
    | '0' :: c :: r =>
      if c = 'x' || c = 'X' then
        if (r.head?.bind (digitInBase 16)).isSome then (16, 2, r)
        else (8, 0, '0' :: c :: r)
      else (8, 0, '0' :: c :: r)
    | r => (10, 0, r)
  let parsed := takeDigits baseInfo.1 baseInfo.2.2 0 0
  if parsed.2 = 0 then (0, 0, false)
  else
    let consumed := ws + signInfo.2.1 + baseInfo.2.1 + parsed.2
    let v : Int := signInfo.1 * (parsed.1 : Int)
    if v > LONG_MAX then (LONG_MAX, consumed, true)
    else if v < LONG_MIN then (LONG_MIN, consumed, true)
    else (v, consumed, false)

/-- Guard of the C code at lines 565-567: errno is clear and the whole
string was consumed as an integer (endptr reached the terminating NUL). -/
def parsesFully (s : List Char) : Prop :=
  (strtol0 s).2.2 = false ∧ (strtol0 s).2.1 = s.length

instance (s : List Char) : Decidable (parsesFully s) := by
  unfold parsesFully; infer_instance

/-- Shallow embedding of the identity resolver (parse_option case u,
vrunas.c lines 559-576; case g at 587-604 is identical with grfindid_r):
when the integer parse fails to consume the whole string or sets errno,
the name lookup is consulted; otherwise the strtol value is assigned to
the uid_t variable, narrowing it modulo 2^32.  The Bool records whether
the name lookup was attempted. -/
def resolve_id (s : List Char) (lookup : List Char → Option Int) :
    Option Int × Bool :=
  if (strtol0 s).2.2 = true ∨ (strtol0 s).2.1 ≠ s.length then
    match lookup s with
    | some w => (some w, true)
    | none => (none, true)
  else (some ((strtol0 s).1 % UID_MOD), false)

/-! ### POSIX benchmark report: do_bench TIME_POSIX branch (vrunas.c 377-382)

fprintf(out, "real %ld.%02d\nuser %ld.%02d\nsys %ld.%02d\n", ...) with
centiseconds computed as tv_nsec / 10000000 for the elapsed time and
tv_usec / 10000 for the two rusage times. -/

def digitChar (d : Nat) : Char := Char.ofNat (48 + d)

/-- Fuel-driven decimal digit rendering (most significant digit first). -/
def natDigitsAux : Nat → Nat → List Char
  | 0, _ => []
  | fuel + 1, n =>
    if n < 10 then [digitChar n]
    else natDigitsAux fuel (n / 10) ++ [digitChar (n % 10)]

/-- Decimal rendering of a nonnegative value, as printf %ld produces. -/
def natDecimal (n : Nat) : List Char := natDigitsAux (n + 1) n

/-- Rendering of printf %02d: decimal, zero-padded to width two. -/
def pad02 (n : Nat) : List Char :=
  if n < 10 then ['0', digitChar n] else natDecimal n

/-- One line of the POSIX report: label, space, seconds, dot, %02d
centiseconds, newline. -/
def benchLine (label : String) (sec cent : Nat) : List Char :=
  label.toList ++ ' ' :: (natDecimal sec ++ '.' :: (pad02 cent ++ ['\n']))

/-- Shallow embedding of the POSIX-mode report fprintf (vrunas.c 378-381):
real (elapsed), user (child user CPU), sys (child system CPU). -/
def posix_report (rsec rnsec utsec utusec stsec stusec : Nat) : List Char :=
  benchLine "real" rsec (rnsec / 10000000)
  ++ benchLine "user" utsec (utusec / 10000)
  ++ benchLine "sys" stsec (stusec / 10000)

/-! ### Output redirection to file: set_out (vrunas.c lines 253-293)
and set_in (lines 295-318) -/

structure OpenFlags where
  wronly : Bool
  creat : Bool
  append : Bool
  trunc : Bool
deriving DecidableEq, Repr

inductive OutEv where
  | openCall (fl : OpenFlags) (mode : Nat) : OutEv
  | dup2 (fd target : Nat) : OutEv
  | closeFd (fd : Nat) : OutEv
deriving DecidableEq, Repr

structure OutOracle where
  openRes : Option Nat
  dup2errOk : Bool
  dup2outOk : Bool
deriving DecidableEq, Repr

/-- Open flags computed at vrunas.c lines 254-264: O_WRONLY | O_CREAT,
plus O_APPEND when OUT_APPEND is set and O_TRUNC otherwise. -/
def outFlags (outAppend : Bool) : OpenFlags :=
  { wronly := true, creat := true, append := outAppend, trunc := !outAppend }

/-- Permission bits of the open call at line 266: S_IWUSR | S_IRUSR | S_IRGRP. -/
def outMode : Nat := S_IWUSR ||| S_IRUSR ||| S_IRGRP

/-- Shallow embedding of set_out: the C return value (0 when no file is
configured, the fd on success, -1 on failure) together with the ordered
file-descriptor events: the open call, a dup2 onto stderr only when a -1
or -2 flag is active, a dup2 onto stdout, and a close of the opened fd on
any dup2 failure. -/
def set_out (file : Option String) (toStdoutF toStderrF outAppend : Bool)
    (orc : OutOracle) : Int × List OutEv :=
  match file with
  | none => (0, [])
  | some _ =>
    match orc.openRes with
    | none => (-1, [OutEv.openCall (outFlags outAppend) outMode])
    | some fd =>
      if (toStderrF || toStdoutF) && !orc.dup2errOk then
        (-1, [OutEv.openCall (outFlags outAppend) outMode,
              OutEv.dup2 fd STDERR_FILENO, OutEv.closeFd fd])
      else if !orc.dup2outOk then
        (-1, ([OutEv.openCall (outFlags outAppend) outMode]
              ++ (if toStderrF || toStdoutF then [OutEv.dup2 fd STDERR_FILENO] else []))
             ++ [OutEv.dup2 fd STDOUT_FILENO, OutEv.closeFd fd])
      else
        ((fd : Int),
         ([OutEv.openCall (outFlags outAppend) outMode]
          ++ (if toStderrF || toStdoutF then [OutEv.dup2 fd STDERR_FILENO] else []))
         ++ [OutEv.dup2 fd STDOUT_FILENO])

/-- Shallow embedding of set_in: 0 when no input file is configured, the
fd on success, -1 when the open or the dup2 onto stdin fails. -/
def set_in (file : Option String) (openRes : Option Nat) (dup2inOk : Bool) : Int :=
  match file with
  | none => 0
  | some _ =>
    match openRes with
    | none => -1
    | some fd => if dup2inOk then (fd : Int) else -1

/-! ### The orchestrator: main after option parsing (vrunas.c lines 656-703) -/

/-- Modelled from the spec: opt_usage and the OPT_ERROR wrapper are part
of the external vlib option-parsing library (vlib/options.h), absent from
this repository's sources; per the spec's exit-code table a missing
program yields a usage diagnostic and exit code 1, so the model passes
the given error code through unchanged. -/
def opt_usage_model (err : Int) : Int := err

/-- Configuration produced by option parsing: the flag bits of enum FLAGS
and the file paths of ctx_t. -/
structure Cfg where
  i_argv_program : Nat
  argc : Nat
  optionalArgs : Bool
  havePriority : Bool
  haveUid : Bool
  haveGid : Bool
  newIdentity : Bool
  toStdoutF : Bool
  toStderrF : Bool
  outAppend : Bool
  timePosix : Bool
  timeExt : Bool
  outfile : Option String
  infile : Option String

/-- Oracle fixing the outcome of every syscall main may issue. -/
structure Orc where
  setprioOk : Bool
  gidOk : Bool
  uidOk : Bool
  outO : OutOracle
  inOpen : Option Nat
  dup2inOk : Bool
  forkRes : ForkRes
  mallocOk : Bool
  execOk : Bool

/-- How the embedded main ended. -/
inductive MainTerm where
  | ret : MainTerm        -- main returns clean_ctx(ret, &ctx)
  | benchExit : MainTerm  -- do_bench parent branch called exit(clean_ctx(..))
  | execed : MainTerm     -- execvp succeeded, process image replaced
deriving DecidableEq, Repr

/-- Call-site events of main's do-while body, in program order. -/
inductive MEv where
  | evSwitchId : MEv
  | evSetOut : MEv
  | evSetIn : MEv
  | evFork : MEv
  | evBuildArgv : MEv
  | evExec : MEv
deriving DecidableEq, Repr

/-- Result of one embedded run of main's body: the call trace, the exit
or return code, how the process ended, the final ctx.outfd and ctx.infd,
and the descriptors closed by clean_ctx on this path. -/
structure RunOut where
  trace : List MEv
  code : Int
  term : MainTerm
  outfd : Int
  infd : Int
  closed : List Int

/-- Descriptors closed by clean_ctx (vrunas.c lines 154-161): ctx.outfd
then ctx.infd, each only when nonnegative. -/
def cleanClosed (outfd infd : Int) : List Int :=
  (if 0 ≤ outfd then [outfd] else []) ++ (if 0 ≤ infd then [infd] else [])

/-- An exit path of main that returns clean_ctx(code, &ctx). -/
def mkRet (t : List MEv) (code outfd infd : Int) : RunOut :=
  ⟨t, clean_ctx_ret code, MainTerm.ret, outfd, infd, cleanClosed outfd infd⟩

/-- Final steps of main (vrunas.c lines 687-699): build_argv then execvp;
malloc failure aborts with ERR_BUILDARGV, exec failure with ERR_EXEC,
exec success never returns (no cleanup runs). -/
def stage_tail (orc : Orc) (t : List MEv) (outfd infd : Int) : RunOut :=
  if !orc.mallocOk then mkRet (t ++ [MEv.evBuildArgv]) ERR_BUILDARGV outfd infd
  else if orc.execOk then
    ⟨t ++ [MEv.evBuildArgv, MEv.evExec], 0, MainTerm.execed, outfd, infd, []⟩
  else mkRet (t ++ [MEv.evBuildArgv, MEv.evExec]) ERR_EXEC outfd infd

/-- Bench step of main (line 685 with do_bench, lines 330-439): fork only
when -t or -T is set; fork failure aborts with ERR_BENCH, the parent
exits with the translated child status, the child and the no-bench path
continue towards exec. -/
def stage_bench (cfg : Cfg) (orc : Orc) (t : List MEv) (outfd infd : Int) : RunOut :=
  if cfg.timePosix || cfg.timeExt then
    match orc.forkRes with
    | .fail => mkRet (t ++ [MEv.evFork]) ERR_BENCH outfd infd
    | .parent oc =>
      ⟨t ++ [MEv.evFork], clean_ctx_ret (translate_status oc), MainTerm.benchExit,
        outfd, infd, cleanClosed outfd infd⟩
    | .child => stage_tail orc (t ++ [MEv.evFork]) outfd infd
  else stage_tail orc t outfd infd

/-- Default-order identity switch of main (line 683): performed after the
files were opened, unless -N was given. -/
def stage_switch2 (cfg : Cfg) (orc : Orc) (t : List MEv) (outfd infd : Int) : RunOut :=
  if cfg.newIdentity then stage_bench cfg orc t outfd infd
  else if (set_uidgid cfg.haveGid cfg.haveUid orc.gidOk orc.uidOk).1 ≠ 0 then
    mkRet (t ++ [MEv.evSwitchId]) ERR_SETID outfd infd
  else stage_bench cfg orc (t ++ [MEv.evSwitchId]) outfd infd

/-- Input-file step of main (line 681): ctx.infd receives set_in's return
value; a negative value aborts with ERR_SETIN. -/
def stage_in (cfg : Cfg) (orc : Orc) (t : List MEv) (outfd : Int) : RunOut :=
  if set_in cfg.infile orc.inOpen orc.dup2inOk < 0 then
    mkRet (t ++ [MEv.evSetIn]) ERR_SETIN outfd (set_in cfg.infile orc.inOpen orc.dup2inOk)
  else stage_switch2 cfg orc (t ++ [MEv.evSetIn]) outfd
    (set_in cfg.infile orc.inOpen orc.dup2inOk)

/-- Output-file step of main (line 679): ctx.outfd receives set_out's
return value; a negative value aborts with ERR_SETOUT. -/
def stage_out (cfg : Cfg) (orc : Orc) (t : List MEv) : RunOut :=
  if (set_out cfg.outfile cfg.toStdoutF cfg.toStderrF cfg.outAppend orc.outO).1 < 0 then
    mkRet (t ++ [MEv.evSetOut]) ERR_SETOUT
      (set_out cfg.outfile cfg.toStdoutF cfg.toStderrF cfg.outAppend orc.outO).1 (-1)
  else stage_in cfg orc (t ++ [MEv.evSetOut])
    (set_out cfg.outfile cfg.toStdoutF cfg.toStderrF cfg.outAppend orc.outO).1

/-- Early identity switch of main (line 677): performed before the files
are opened when -N (FILE_NEWIDENTITY) was given. -/
def stage_switch1 (cfg : Cfg) (orc : Orc) (t : List MEv) : RunOut :=
  if cfg.newIdentity then
    if (set_uidgid cfg.haveGid cfg.haveUid orc.gidOk orc.uidOk).1 ≠ 0 then
      mkRet (t ++ [MEv.evSwitchId]) ERR_SETID (-1) (-1)
    else stage_out cfg orc (t ++ [MEv.evSwitchId])
  else stage_out cfg orc t

/-- Priority step of main (line 669): setpriority is attempted only when
-p was given; failure aborts with ERR_PRIORITY. -/
def stage_prio (cfg : Cfg) (orc : Orc) : RunOut :=
  if cfg.havePriority && !orc.setprioOk then mkRet [] ERR_PRIORITY (-1) (-1)
  else stage_switch1 cfg orc []

/-- Shallow embedding of the body of main after option parsing (vrunas.c
lines 656-703): the program-missing check, then priority, identity
switches, file redirections, bench and exec, with ctx cleanup on every
non-exec exit path. -/
def main_run (cfg : Cfg) (orc : Orc) : RunOut :=
  if cfg.i_argv_program = 0 ∨ cfg.argc ≤ cfg.i_argv_program then
    if cfg.optionalArgs then mkRet [] 0 (-1) (-1)
    else mkRet [] (opt_usage_model ERR_PROG_MISSING) (-1) (-1)
  else stage_prio cfg orc

/-- Boolean test: some occurrence of a strictly precedes some occurrence
of b in the list. -/
def occursBeforeB : List MEv → MEv → MEv → Bool
  | [], _, _ => false
  | c :: rest, a, b => (decide (c = a) && decide (b ∈ rest)) || occursBeforeB rest a b

/-- Possible trace suffixes contributed by stage_bench onward. -/
def benchSuffixes : List (List MEv) :=
  [[MEv.evFork], [MEv.evFork, MEv.evBuildArgv], [MEv.evFork, MEv.evBuildArgv, MEv.evExec],
   [MEv.evBuildArgv], [MEv.evBuildArgv, MEv.evExec]]

/-- Possible trace suffixes contributed by stage_switch2 onward. -/
def sw2Suffixes (newId : Bool) : List (List MEv) :=
  if newId then benchSuffixes
  else [MEv.evSwitchId] :: benchSuffixes.map (MEv.evSwitchId :: ·)

/-- Possible trace suffixes contributed by stage_in onward. -/
def inSuffixes (newId : Bool) : List (List MEv) :=
  [MEv.evSetIn] :: (sw2Suffixes newId).map (MEv.evSetIn :: ·)

/-- Possible trace suffixes contributed by stage_out onward. -/
def outSuffixes (newId : Bool) : List (List MEv) :=
  [MEv.evSetOut] :: (inSuffixes newId).map (MEv.evSetOut :: ·)

/-- The possible complete traces of main_run, by new-identity flag. -/
def mainTraces (newId : Bool) : List (List MEv) :=
  if newId then [] :: [MEv.evSwitchId] :: (outSuffixes true).map (MEv.evSwitchId :: ·)
  else [] :: outSuffixes false

/-- Condition under which main's execution reaches the set_out call: a
program is present, the priority step did not fail, and the early -N
identity switch, when selected, succeeded. -/
def MainReachesOut (cfg : Cfg) (orc : Orc) : Prop :=
  ¬ (cfg.i_argv_program = 0 ∨ cfg.argc ≤ cfg.i_argv_program)
  ∧ (cfg.havePriority = true → orc.setprioOk = true)
  ∧ (cfg.newIdentity = true →
      (set_uidgid cfg.haveGid cfg.haveUid orc.gidOk orc.uidOk).1 = 0)

/-- Configuration with a program and no options at all: no output or
input file, no redirect flags, no bench, no identity change. -/
def cfgPlain : Cfg :=
  { i_argv_program := 1, argc := 2, optionalArgs := false, havePriority := false,
    haveUid := false, haveGid := false, newIdentity := false, toStdoutF := false,
    toStderrF := false, outAppend := false, timePosix := false, timeExt := false,
    outfile := none, infile := none }

/-- Oracle where every syscall succeeds except the final execvp. -/
def orcExecFail : Orc :=
  { setprioOk := true, gidOk := true, uidOk := true,
    outO := { openRes := some 3, dup2errOk := true, dup2outOk := true },
    inOpen := some 4, dup2inOk := true, forkRes := ForkRes.child,
    mallocOk := true, execOk := false }

/-- All-success oracle. -/
def orcAllOk : Orc :=
  { setprioOk := true, gidOk := true, uidOk := true,
    outO := { openRes := some 3, dup2errOk := true, dup2outOk := true },
    inOpen := some 4, dup2inOk := true, forkRes := ForkRes.child,
    mallocOk := true, execOk := true }

/-- Print-only invocation: -U or -G set OPTIONAL_ARGS and no program follows. -/
def cfgPrintOnly : Cfg :=
  { cfgPlain with i_argv_program := 0, optionalArgs := true }

end VRunAs

namespace VRunAs

/-! ## Theorems -/

/-- Claim C1 (counterexample): with benchmarking enabled (-t) and no
explicit -1 or -2 mode, set_redirections redirects stderr onto stdout's
destination, while the claim demands stdout onto stderr's destination;
the two selections disagree at this concrete configuration. -/
theorem c1_bench_selection_counterexample :
    redir_selection false false true false
      = some (StdStream.stderrS, StdStream.stdoutS)
    ∧ redir_selection_claimed false false true
      = some (StdStream.stdoutS, StdStream.stderrS)
    ∧ redir_selection false false true false
      ≠ redir_selection_claimed false false true := by
  refine ⟨rfl, rfl, ?_⟩
  decide

/-- Claim C1 (amended): set_redirections selects the redirected stream as
follows: mode -1 redirects stderr onto stdout's destination; mode -2
redirects stdout onto stderr's destination; benchmarking enabled with no
explicit mode redirects stderr onto stdout's destination (same as -1);
with neither mode nor benchmarking, no stream is redirected. -/
theorem c1_redirection_selection (m : RedirMode) (tp te : Bool) :
    redir_selection (modeFlags m).1 (modeFlags m).2 tp te =
      (match m with
       | .stderrToStdout => some (StdStream.stderrS, StdStream.stdoutS)
       | .stdoutToStderr => some (StdStream.stdoutS, StdStream.stderrS)
       | .noneM =>
         if tp || te then some (StdStream.stderrS, StdStream.stdoutS)
         else none) := by
  cases m <;> cases tp <;> cases te <;> rfl

/-- Claim C2: in the benchmark parent branch the supervisor terminates the
process with the translated child outcome: a normal exit code passes
through verbatim (7 yields 7), death by signal N yields -100 - N
(signal 9 yields -109), an indeterminate outcome yields -100, and the
parent branch never returns control to the caller. -/
theorem c2_bench_exit_translation :
    (∀ c : Int, do_bench true (.parent (.exited c)) = .terminated c)
    ∧ do_bench true (.parent (.exited 7)) = .terminated 7
    ∧ (∀ n : Int, do_bench true (.parent (.signaled n)) = .terminated (-100 - n))
    ∧ do_bench true (.parent (.signaled 9)) = .terminated (-109)
    ∧ do_bench true (.parent .unknown) = .terminated (-100)
    ∧ (∀ oc : ChildOutcome, (do_bench true (.parent oc)).isContinue = false) := by
  refine ⟨fun c => rfl, rfl, fun n => rfl, by norm_num [do_bench, clean_ctx_ret,
    translate_status], rfl, fun oc => rfl⟩

/-- Claim C3: with both a uid and a gid configured, set_uidgid issues
setgid strictly before setuid — the call list is [setgid] or
[setgid, setuid], so no setuid ever precedes a setgid and neither call is
retried — and any failure yields the fatal code ERR_SETID. -/
theorem c3_gid_before_uid (gidOk uidOk : Bool) :
    ((set_uidgid true true gidOk uidOk).2 = [IdCall.callSetgid]
      ∨ (set_uidgid true true gidOk uidOk).2 = [IdCall.callSetgid, IdCall.callSetuid])
    ∧ (set_uidgid true true gidOk uidOk).2.head? = some IdCall.callSetgid
    ∧ (set_uidgid true true gidOk uidOk).2.count IdCall.callSetgid ≤ 1
    ∧ (set_uidgid true true gidOk uidOk).2.count IdCall.callSetuid ≤ 1
    ∧ ((gidOk = false ∨ uidOk = false) →
        (set_uidgid true true gidOk uidOk).1 = ERR_SETID)
    ∧ (gidOk = true → uidOk = true → (set_uidgid true true gidOk uidOk).1 = 0) := by
  cases gidOk <;> cases uidOk <;> simp [set_uidgid, ERR_SETID]

/-- Witness for c3_gid_before_uid at the concrete input where setgid
succeeds and setuid fails: the failure is reported as ERR_SETID and both
syscalls were issued in the order setgid, setuid. -/
theorem c3_gid_before_uid_witness :
    (set_uidgid true true true false).1 = ERR_SETID
    ∧ (set_uidgid true true true false).2 = [IdCall.callSetgid, IdCall.callSetuid] := by
  refine ⟨(c3_gid_before_uid true false).2.2.2.2.1 (Or.inr rfl), ?_⟩
  rcases (c3_gid_before_uid true false).1 with h | h
  · exact absurd h (by decide)
  · exact h

/-- Claim C5 (counterexample): the string 4294967296 parses entirely as a
valid integer with strtol, yet the resolver, assigning through the 32-bit
uid_t variable, yields 0 rather than 4294967296 (still with no name
lookup), so the resolver does not return exactly the parsed number. -/
theorem c5_uid_narrowing_counterexample :
    parsesFully ("4294967296".toList)
    ∧ resolve_id ("4294967296".toList) (fun _ => none) = (some 0, false)
    ∧ (0 : Int) ≠ 4294967296 := by
  refine ⟨by decide, by decide, by decide⟩

/-- Claim C5 (amended): every identity string that parses entirely as a
valid integer (0x prefix hex, leading-0 octal, else decimal) is resolved
without any name lookup, to the parsed value reduced modulo 2^32 by the
uid_t assignment — hence to exactly that number whenever the value lies
in [0, 2^32) — and a name lookup is attempted only when integer parsing
fails to consume the whole string or overflows. -/
theorem c5_numeric_no_lookup (s : List Char) (lookup : List Char → Option Int) :
    (parsesFully s →
      resolve_id s lookup = (some ((strtol0 s).1 % UID_MOD), false)
      ∧ (0 ≤ (strtol0 s).1 → (strtol0 s).1 < UID_MOD →
          resolve_id s lookup = (some ((strtol0 s).1), false)))
    ∧ ((resolve_id s lookup).2 = true → ¬ parsesFully s) := by
  constructor
  · intro h
    have hcond : ¬ ((strtol0 s).2.2 = true ∨ (strtol0 s).2.1 ≠ s.length) := by
      rcases h with ⟨h1, h2⟩
      simp [h1, h2]
    constructor
    · simp [resolve_id, hcond]
    · intro h0 hlt
      have hm : (strtol0 s).1 % UID_MOD = (strtol0 s).1 := Int.emod_eq_of_lt h0 hlt
      simp [resolve_id, hcond, hm]
  · intro hl hp
    rcases hp with ⟨h1, h2⟩
    simp [resolve_id, h1, h2] at hl

/-- Witness for c5_numeric_no_lookup at the hex string 0x1A: it parses
fully and the resolver returns exactly 26 with no name lookup. -/
theorem c5_numeric_no_lookup_witness :
    parsesFully ("0x1A".toList)
    ∧ resolve_id ("0x1A".toList) (fun _ => none) = (some 26, false) := by
  refine ⟨by decide, ?_⟩
  have h := ((c5_numeric_no_lookup ("0x1A".toList) (fun _ => none)).1
    (by decide)).2 (by decide) (by decide)
  have hv : (strtol0 ("0x1A".toList)).1 = 26 := by decide
  rw [hv] at h
  exact h

/-- Digit characters are the only characters natDigitsAux produces. -/
theorem natDigitsAux_mem_digit {fuel n : Nat} {c : Char}
    (h : c ∈ natDigitsAux fuel n) : ∃ d, d < 10 ∧ c = digitChar d := by
  induction fuel generalizing n with
  | zero => simp [natDigitsAux] at h
  | succ f ih =>
    simp only [natDigitsAux] at h
    split at h
    · next hlt =>
      simp only [List.mem_singleton] at h
      exact ⟨n, hlt, h⟩
    · next hge =>
      rcases List.mem_append.mp h with h1 | h2
      · exact ih h1
      · simp only [List.mem_singleton] at h2
        exact ⟨n % 10, Nat.mod_lt _ (by omega), h2⟩

/-- No digit character is a newline. -/
theorem digitChar_lt_ne_newline : ∀ d : Nat, d < 10 → digitChar d ≠ '\n' := by
  decide

/-- The decimal rendering of a number contains no newline. -/
theorem newline_not_mem_natDecimal (n : Nat) : '\n' ∉ natDecimal n := by
  intro h
  unfold natDecimal at h
  obtain ⟨d, hd, hc⟩ := natDigitsAux_mem_digit h
  exact digitChar_lt_ne_newline d hd hc.symm

/-- With positive fuel, a single-digit number renders as one character. -/
theorem natDigitsAux_pos_small {f n : Nat} (hf : 0 < f) (hn : n < 10) :
    natDigitsAux f n = [digitChar n] := by
  cases f with
  | zero => omega
  | succ f => simp [natDigitsAux, hn]

/-- Two-digit numbers render as exactly two characters. -/
theorem natDecimal_length_two {n : Nat} (h10 : 10 ≤ n) (h100 : n < 100) :
    (natDecimal n).length = 2 := by
  unfold natDecimal
  have h1 : natDigitsAux (n + 1) n = natDigitsAux n (n / 10) ++ [digitChar (n % 10)] := by
    simp only [natDigitsAux]
    rw [if_neg (by omega)]
  rw [h1, natDigitsAux_pos_small (by omega) (by omega)]
  rfl

/-- The %02d rendering of a value below 100 has exactly two characters. -/
theorem pad02_length {n : Nat} (h : n < 100) : (pad02 n).length = 2 := by
  unfold pad02
  split
  · rfl
  · next hge => exact natDecimal_length_two (by omega) h

/-- The %02d rendering contains no newline. -/
theorem newline_not_mem_pad02 (n : Nat) : '\n' ∉ pad02 n := by
  unfold pad02
  split
  · next hlt =>
    intro hmem
    rcases List.mem_cons.mp hmem with h | h
    · exact absurd h (by decide)
    · simp only [List.mem_singleton] at h
      exact digitChar_lt_ne_newline n hlt h.symm
  · exact newline_not_mem_natDecimal n

theorem count_newline_natDecimal (n : Nat) : (natDecimal n).count '\n' = 0 :=
  List.count_eq_zero.mpr (newline_not_mem_natDecimal n)

theorem count_newline_pad02 (n : Nat) : (pad02 n).count '\n' = 0 :=
  List.count_eq_zero.mpr (newline_not_mem_pad02 n)

/-- Claim C8: in POSIX mode the benchmark report is exactly three lines,
real then user then sys, each consisting of the label, a space, the whole
seconds, a dot and exactly two decimal digits, reporting the elapsed wall
time, the child user CPU time and the child system CPU time. -/
theorem c8_posix_report_shape (rsec rnsec utsec utusec stsec stusec : Nat)
    (h1 : rnsec < 1000000000) (h2 : utusec < 1000000) (h3 : stusec < 1000000) :
    (posix_report rsec rnsec utsec utusec stsec stusec).count '\n' = 3
    ∧ ∃ f1 f2 f3 : List Char,
        posix_report rsec rnsec utsec utusec stsec stusec =
          ("real".toList ++ ' ' :: (natDecimal rsec ++ '.' :: (f1 ++ ['\n'])))
          ++ ("user".toList ++ ' ' :: (natDecimal utsec ++ '.' :: (f2 ++ ['\n'])))
          ++ ("sys".toList ++ ' ' :: (natDecimal stsec ++ '.' :: (f3 ++ ['\n'])))
        ∧ f1.length = 2 ∧ f2.length = 2 ∧ f3.length = 2
        ∧ '\n' ∉ f1 ∧ '\n' ∉ f2 ∧ '\n' ∉ f3 := by
  constructor
  · have hr : (("real".toList : List Char)).count '\n' = 0 := by decide
    have hu : (("user".toList : List Char)).count '\n' = 0 := by decide
    have hs : (("sys".toList : List Char)).count '\n' = 0 := by decide
    simp [posix_report, benchLine, List.count_append, List.count_cons,
      hr, hu, hs, count_newline_natDecimal, count_newline_pad02]
  · refine ⟨pad02 (rnsec / 10000000), pad02 (utusec / 10000), pad02 (stusec / 10000),
      rfl, pad02_length (by omega), pad02_length (by omega), pad02_length (by omega),
      newline_not_mem_pad02 _, newline_not_mem_pad02 _, newline_not_mem_pad02 _⟩

/-- Witness for c8_posix_report_shape at a report of 1.23 real, 2.34
user, 5.06 sys seconds: the bounds hold and the report has three lines. -/
theorem c8_posix_report_shape_witness :
    230000000 < 1000000000 ∧ 340000 < 1000000 ∧ 60000 < 1000000
    ∧ (posix_report 1 230000000 2 340000 5 60000).count '\n' = 3 :=
  ⟨by norm_num, by norm_num, by norm_num,
    (c8_posix_report_shape 1 230000000 2 340000 5 60000
      (by norm_num) (by norm_num) (by norm_num)).1⟩

/-- Claim C6: with an explicit output file, set_out opens it write-only
with create, truncating when the append flag is unset and appending when
it is set, with permissions owner read/write plus group read; the
descriptor is duplicated onto stdout, and additionally onto stderr
exactly when a -1 or -2 redirect mode is active; any open or dup2 failure
yields a negative result with the opened descriptor closed, upon which
main aborts with ERR_SETOUT. -/
theorem c6_output_file (f : String) (tso tse app : Bool) (orc : OutOracle) :
    ((set_out (some f) tso tse app orc).2.head?
        = some (OutEv.openCall (outFlags app) outMode))
    ∧ (outFlags app).wronly = true ∧ (outFlags app).creat = true
    ∧ (outFlags app).append = app ∧ (outFlags app).trunc = !app
    ∧ outMode = S_IWUSR ||| S_IRUSR ||| S_IRGRP
    ∧ ((∃ fd, OutEv.dup2 fd STDERR_FILENO ∈ (set_out (some f) tso tse app orc).2)
        ↔ ((tso || tse) = true ∧ orc.openRes ≠ none))
    ∧ (∀ fd, orc.openRes = some fd → 0 ≤ (set_out (some f) tso tse app orc).1 →
        (set_out (some f) tso tse app orc).1 = (fd : Int)
        ∧ OutEv.dup2 fd STDOUT_FILENO ∈ (set_out (some f) tso tse app orc).2)
    ∧ ((set_out (some f) tso tse app orc).1 < 0 →
        ∀ fd, orc.openRes = some fd →
          OutEv.closeFd fd ∈ (set_out (some f) tso tse app orc).2)
    ∧ (∀ (cfg : Cfg) (mOrc : Orc), cfg.outfile = some f → MainReachesOut cfg mOrc →
        (set_out (some f) cfg.toStdoutF cfg.toStderrF cfg.outAppend mOrc.outO).1 < 0 →
        (main_run cfg mOrc).code = ERR_SETOUT ∧ (main_run cfg mOrc).term = MainTerm.ret) := by
  have hmain : ∀ (cfg : Cfg) (mOrc : Orc), cfg.outfile = some f → MainReachesOut cfg mOrc →
      (set_out (some f) cfg.toStdoutF cfg.toStderrF cfg.outAppend mOrc.outO).1 < 0 →
      (main_run cfg mOrc).code = ERR_SETOUT ∧ (main_run cfg mOrc).term = MainTerm.ret := by
    intro cfg mOrc hof hreach hfail
    obtain ⟨hprog, hprio, hswitch⟩ := hreach
    have hpc : (cfg.havePriority && !mOrc.setprioOk) = false := by
      cases hhp : cfg.havePriority
      · rfl
      · simp [hprio hhp]
    unfold main_run
    rw [if_neg hprog]
    unfold stage_prio
    rw [hpc]
    simp only [Bool.false_eq_true, if_false]
    unfold stage_switch1
    cases hni : cfg.newIdentity with
    | false =>
      simp only [hni, Bool.false_eq_true, if_false]
      unfold stage_out
      rw [hof, if_pos hfail]
      exact ⟨rfl, rfl⟩
    | true =>
      have hz := hswitch hni
      simp only [hni, if_true]
      rw [if_neg (by simp [hz])]
      unfold stage_out
      rw [hof, if_pos hfail]
      exact ⟨rfl, rfl⟩
  obtain ⟨openRes, de, dout⟩ := orc
  refine ⟨?_, rfl, rfl, rfl, rfl, rfl, ?_, ?_, ?_, hmain⟩
  · clear hmain
    rcases openRes with _ | fd <;>
      cases tso <;> cases tse <;> cases de <;> cases dout <;>
      simp [set_out]
  · clear hmain
    rcases openRes with _ | fd <;>
      cases tso <;> cases tse <;> cases de <;> cases dout <;>
      simp [set_out, STDERR_FILENO, STDOUT_FILENO]
  · clear hmain
    intro fd0 hfd0 hpos
    rcases openRes with _ | fd
    · exact absurd hfd0 (by simp)
    · injection hfd0 with hfd0
      subst hfd0
      cases tso <;> cases tse <;> cases de <;> cases dout <;>
        (try (exfalso; simp [set_out] at hpos; done)) <;>
        simp [set_out, STDOUT_FILENO, STDERR_FILENO]
  · clear hmain
    intro hneg fd0 hfd0
    rcases openRes with _ | fd
    · exact absurd hfd0 (by simp)
    · injection hfd0 with hfd0
      subst hfd0
      cases tso <;> cases tse <;> cases de <;> cases dout <;>
        (try (exfalso; simp [set_out] at hneg; omega)) <;>
        simp [set_out, STDOUT_FILENO, STDERR_FILENO]

/-- Witness for c6_output_file at a plain truncating configuration with a
successful open on descriptor 3: the first event is the open call with
O_WRONLY, O_CREAT, O_TRUNC and mode 0640. -/
theorem c6_output_file_witness :
    (set_out (some "out.txt") false false false
        { openRes := some 3, dup2errOk := true, dup2outOk := true }).2.head?
      = some (OutEv.openCall (outFlags false) outMode) :=
  (c6_output_file "out.txt" false false false
    { openRes := some 3, dup2errOk := true, dup2outOk := true }).1

/-- Claim C7: when no target program is named, main exits with code 0 if
a print-only -U or -G mode was selected (OPTIONAL_ARGS), and otherwise
writes a diagnostic and exits with code 1 (ERR_PROG_MISSING); in both
cases no fork and no exec is attempted. -/
theorem c7_missing_program (cfg : Cfg) (orc : Orc)
    (h : cfg.i_argv_program = 0 ∨ cfg.argc ≤ cfg.i_argv_program) :
    (cfg.optionalArgs = true →
      (main_run cfg orc).code = 0 ∧ (main_run cfg orc).term = MainTerm.ret)
    ∧ (cfg.optionalArgs = false →
      (main_run cfg orc).code = 1 ∧ (main_run cfg orc).term = MainTerm.ret)
    ∧ MEv.evFork ∉ (main_run cfg orc).trace
    ∧ MEv.evExec ∉ (main_run cfg orc).trace := by
  simp only [main_run, if_pos h]
  cases hopt : cfg.optionalArgs <;>
    simp [hopt, mkRet, clean_ctx_ret, opt_usage_model, ERR_PROG_MISSING]

/-- Witness for c7_missing_program at the print-only configuration: no
program is present, the exit code is 0 and no fork is attempted. -/
theorem c7_missing_program_witness :
    (cfgPrintOnly.i_argv_program = 0 ∨ cfgPrintOnly.argc ≤ cfgPrintOnly.i_argv_program)
    ∧ (main_run cfgPrintOnly orcAllOk).code = 0
    ∧ MEv.evFork ∉ (main_run cfgPrintOnly orcAllOk).trace :=
  ⟨Or.inl rfl,
    ((c7_missing_program cfgPrintOnly orcAllOk (Or.inl rfl)).1 rfl).1,
    (c7_missing_program cfgPrintOnly orcAllOk (Or.inl rfl)).2.2.1⟩

/-- Claim C9 (code evaluation at the failing input): in a plain run with
no output and no input file, set_out and set_in return 0, so ctx.outfd
and ctx.infd end as 0 instead of the documented -1 sentinel, and when
exec fails the cleanup closes descriptor 0 — stdin, a standard stream the
launcher never opened. -/
theorem c9_sentinel_violated :
    (main_run cfgPlain orcExecFail).outfd = 0
    ∧ (main_run cfgPlain orcExecFail).outfd ≠ -1
    ∧ (main_run cfgPlain orcExecFail).infd = 0
    ∧ ((STDIN_FILENO : Int) ∈ (main_run cfgPlain orcExecFail).closed)
    ∧ (main_run cfgPlain orcExecFail).closed = [0, 0]
    ∧ (main_run cfgPlain orcExecFail).code = ERR_EXEC := by
  refine ⟨by decide, by decide, by decide, by decide, by decide, by decide⟩

/-- Trace suffix contributed by the argv-build and exec steps. -/
theorem stage_tail_suffix (orc : Orc) (t : List MEv) (o i : Int) :
    ∃ s, (stage_tail orc t o i).trace = t ++ s
      ∧ (s = [MEv.evBuildArgv] ∨ s = [MEv.evBuildArgv, MEv.evExec]) := by
  unfold stage_tail
  split
  · exact ⟨[MEv.evBuildArgv], rfl, Or.inl rfl⟩
  · split
    · exact ⟨[MEv.evBuildArgv, MEv.evExec], rfl, Or.inr rfl⟩
    · exact ⟨[MEv.evBuildArgv, MEv.evExec], rfl, Or.inr rfl⟩

/-- Trace suffix contributed by the bench step onward. -/
theorem stage_bench_suffix (cfg : Cfg) (orc : Orc) (t : List MEv) (o i : Int) :
    ∃ s, (stage_bench cfg orc t o i).trace = t ++ s ∧ s ∈ benchSuffixes := by
  unfold stage_bench
  split
  · split
    · exact ⟨[MEv.evFork], rfl, by decide⟩
    · exact ⟨[MEv.evFork], rfl, by decide⟩
    · obtain ⟨s, hs, hc⟩ := stage_tail_suffix orc (t ++ [MEv.evFork]) o i
      rcases hc with rfl | rfl
      · exact ⟨[MEv.evFork, MEv.evBuildArgv], by rw [hs]; simp, by decide⟩
      · exact ⟨[MEv.evFork, MEv.evBuildArgv, MEv.evExec], by rw [hs]; simp, by decide⟩
  · obtain ⟨s, hs, hc⟩ := stage_tail_suffix orc t o i
    rcases hc with rfl | rfl
    · exact ⟨[MEv.evBuildArgv], hs, by decide⟩
    · exact ⟨[MEv.evBuildArgv, MEv.evExec], hs, by decide⟩

/-- Trace suffix contributed by the post-files identity switch onward. -/
theorem stage_switch2_suffix (cfg : Cfg) (orc : Orc) (t : List MEv) (o i : Int) :
    ∃ s, (stage_switch2 cfg orc t o i).trace = t ++ s ∧ s ∈ sw2Suffixes cfg.newIdentity := by
  unfold stage_switch2
  split
  · next hni =>
    obtain ⟨s, hs, hc⟩ := stage_bench_suffix cfg orc t o i
    refine ⟨s, hs, ?_⟩
    rw [hni]
    simpa [sw2Suffixes] using hc
  · next hni =>
    have hni' : cfg.newIdentity = false := by simpa using hni
    split
    · refine ⟨[MEv.evSwitchId], rfl, ?_⟩
      rw [hni']
      exact List.mem_cons_self _ _
    · obtain ⟨s, hs, hc⟩ := stage_bench_suffix cfg orc (t ++ [MEv.evSwitchId]) o i
      refine ⟨MEv.evSwitchId :: s, by rw [hs]; simp, ?_⟩
      rw [hni']
      exact List.mem_cons_of_mem _ (List.mem_map_of_mem _ hc)

/-- Trace suffix contributed by the input-file step onward. -/
theorem stage_in_suffix (cfg : Cfg) (orc : Orc) (t : List MEv) (o : Int) :
    ∃ s, (stage_in cfg orc t o).trace = t ++ s ∧ s ∈ inSuffixes cfg.newIdentity := by
  unfold stage_in
  split
  · exact ⟨[MEv.evSetIn], rfl, List.mem_cons_self _ _⟩
  · obtain ⟨s, hs, hc⟩ := stage_switch2_suffix cfg orc (t ++ [MEv.evSetIn]) o
      (set_in cfg.infile orc.inOpen orc.dup2inOk)
    exact ⟨MEv.evSetIn :: s, by rw [hs]; simp,
      List.mem_cons_of_mem _ (List.mem_map_of_mem _ hc)⟩

/-- Trace suffix contributed by the output-file step onward. -/
theorem stage_out_suffix (cfg : Cfg) (orc : Orc) (t : List MEv) :
    ∃ s, (stage_out cfg orc t).trace = t ++ s ∧ s ∈ outSuffixes cfg.newIdentity := by
  unfold stage_out
  split
  · exact ⟨[MEv.evSetOut], rfl, List.mem_cons_self _ _⟩
  · obtain ⟨s, hs, hc⟩ := stage_in_suffix cfg orc (t ++ [MEv.evSetOut])
      (set_out cfg.outfile cfg.toStdoutF cfg.toStderrF cfg.outAppend orc.outO).1
    exact ⟨MEv.evSetOut :: s, by rw [hs]; simp,
      List.mem_cons_of_mem _ (List.mem_map_of_mem _ hc)⟩

/-- Every trace of main_run is one of the finitely many listed in
mainTraces (keyed by the new-identity flag). -/
theorem main_trace_mem (cfg : Cfg) (orc : Orc) :
    (main_run cfg orc).trace ∈ mainTraces cfg.newIdentity := by
  unfold main_run
  split
  · split
    · cases cfg.newIdentity <;> exact List.mem_cons_self _ _
    · cases cfg.newIdentity <;> exact List.mem_cons_self _ _
  · unfold stage_prio
    split
    · cases cfg.newIdentity <;> exact List.mem_cons_self _ _
    · unfold stage_switch1
      split
      · next hni =>
        split
        · rw [hni]
          exact List.mem_cons_of_mem _ (List.mem_cons_self _ _)
        · simp only [List.nil_append]
          obtain ⟨s, hs, hc⟩ := stage_out_suffix cfg orc [MEv.evSwitchId]
          rw [hni] at hc
          rw [hs, hni]
          exact List.mem_cons_of_mem _
            (List.mem_cons_of_mem _ (List.mem_map_of_mem _ hc))
      · next hni =>
        have hni' : cfg.newIdentity = false := by simpa using hni
        obtain ⟨s, hs, hc⟩ := stage_out_suffix cfg orc []
        rw [hni'] at hc
        rw [hs, hni']
        exact List.mem_cons_of_mem _ hc

/-- Claim C4: the order of the identity switch relative to the output and
input file-opening calls is governed by the -N flag: with the flag unset
no identity switch ever precedes a file-opening step, with it set no
file-opening step ever precedes the identity switch; at most one identity
switch is ever attempted, and exactly one in every run that reaches the
fork or the argv-build step. -/
theorem c4_switch_file_order (cfg : Cfg) (orc : Orc) :
    ((main_run cfg orc).trace.count MEv.evSwitchId ≤ 1)
    ∧ ((MEv.evFork ∈ (main_run cfg orc).trace ∨ MEv.evBuildArgv ∈ (main_run cfg orc).trace)
        → (main_run cfg orc).trace.count MEv.evSwitchId = 1)
    ∧ (cfg.newIdentity = false →
        occursBeforeB (main_run cfg orc).trace MEv.evSwitchId MEv.evSetOut = false
        ∧ occursBeforeB (main_run cfg orc).trace MEv.evSwitchId MEv.evSetIn = false)
    ∧ (cfg.newIdentity = true →
        occursBeforeB (main_run cfg orc).trace MEv.evSetOut MEv.evSwitchId = false
        ∧ occursBeforeB (main_run cfg orc).trace MEv.evSetIn MEv.evSwitchId = false) := by
  have hmem := main_trace_mem cfg orc
  cases hni : cfg.newIdentity with
  | false =>
    rw [hni] at hmem
    revert hmem
    generalize (main_run cfg orc).trace = T
    intro hmem
    fin_cases hmem <;> decide
  | true =>
    rw [hni] at hmem
    revert hmem
    generalize (main_run cfg orc).trace = T
    intro hmem
    fin_cases hmem <;> decide

/-- Witness for c4_switch_file_order at the plain all-success run: the
trace contains exactly one identity switch. -/
theorem c4_switch_file_order_witness :
    (main_run cfgPlain orcAllOk).trace.count MEv.evSwitchId ≤ 1
    ∧ (main_run cfgPlain orcAllOk).trace.count MEv.evSwitchId = 1 :=
  ⟨(c4_switch_file_order cfgPlain orcAllOk).1,
    (c4_switch_file_order cfgPlain orcAllOk).2.1 (Or.inr (by decide))⟩

/-- Claim C10 (code evaluation): build_argv requests argc + 1 bytes from
malloc, but storing the argc argument pointers plus the terminating NULL
needs (argc + 1) pointer-sized slots; with 8-byte pointers the request is
always strictly smaller than the bytes written, in particular 2 bytes
against 16 at argc = 1. -/
theorem c10_alloc_too_small :
    build_argv_malloc_request 1 = 2
    ∧ build_argv_bytes_needed 1 8 = 16
    ∧ (∀ argc : Nat,
        build_argv_malloc_request argc < build_argv_bytes_needed argc 8) := by
  refine ⟨rfl, rfl, fun argc => ?_⟩
  simp only [build_argv_malloc_request, build_argv_bytes_needed]
  omega

end VRunAs
